import Mathlib

/-!
# Verification of the RBAC/authentication domain core

Shallow embedding of the domain model of the `nestjs-template` repository:
the `User`, `Role`, `Permission` entities, their specifications, the
`UserService.validateCredentials` flow, `RoleService.deleteRole`, the
`ResourceAction` and `Token` value objects, and the in-memory
`ThrottlerService`.  Timestamps are `Nat` (epoch milliseconds) and every
mutating entity method receives the current time explicitly; fallible
operations return `Except DomainError`.
-/

deriving instance DecidableEq for Except

namespace NestTemplate

/-- Error taxonomy, from `domain-exceptions.ts`.  Each constructor is one
exception class; payloads keep the data the claims need. -/
inductive DomainError where
  | entityNotFound (entityName : String)
  | entityAlreadyExists (entityName : String)
  | invalidValueObject (msg : String)
  | forbiddenAction (msg : String)
  | throttlingExceeded (secondsUntilReset : Nat)
  | invalidThrottleIdentifier
  | userNotEligibleForRole (userId roleName : String)
  | userAlreadyHasRole (userId roleName : String)
  | inactiveUser (operation : String)
  | userCannotRemoveLastRole
  | cannotDeleteDefaultRole
  | permissionAlreadyAssigned (permissionName roleName : String)
  deriving Repr, DecidableEq

/-- JS `toLowerCase`, character by character (all names in this domain are
ASCII). -/
def lowerStr (s : String) : String :=
  String.mk (s.toList.map Char.toLower)

/-- JS `trim`: strip leading and trailing whitespace. -/
def trimStr (s : String) : String :=
  String.mk (((s.toList.dropWhile Char.isWhitespace).reverse.dropWhile
    Char.isWhitespace).reverse)

/-- `sub` is an initial segment of `l`. -/
def startsWithList : List Char → List Char → Bool
  | _, [] => true
  | [], _ :: _ => false
  | a :: as, b :: bs => a == b && startsWithList as bs

/-- `sub` occurs as a contiguous run somewhere in `l`. -/
def hasSubList (sub : List Char) : List Char → Bool
  | [] => sub.isEmpty
  | c :: rest => startsWithList (c :: rest) sub || hasSubList sub rest

/-- `sub` occurs as a contiguous substring of `s`
(JS `String.prototype.includes`). -/
def containsSubstring (s sub : String) : Bool :=
  hasSubList sub.toList s.toList

/-- `Permission` entity (`permission.entity.ts`).  `resource`/`action` are the
strings returned by `getResource()`/`getAction()`; ids are the string values
of the id value objects (their `equals` is string equality). -/
structure Permission where
  id : String
  resource : String
  action : String
  description : String
  createdAt : Nat
  updatedAt : Nat
  deriving Repr, DecidableEq

/-- `PermissionName` string, derived as `resource:action`. -/
def Permission.key (p : Permission) : String := p.resource ++ ":" ++ p.action

/-- `PermissionsCollection.hasAdminPermissions`: some permission pairs an
admin resource with a critical action. -/
def hasAdminPermissions (ps : List Permission) : Bool :=
  ps.any fun p =>
    (["user", "role", "permission", "system"].contains (lowerStr p.resource)) &&
    (["create", "update", "delete"].contains (lowerStr p.action))

/-- `Role` entity (`role.entity.ts`). -/
structure Role where
  id : String
  name : String
  description : String
  permissions : List Permission
  isDefault : Bool
  createdAt : Nat
  updatedAt : Nat
  deriving Repr, DecidableEq

/-- `Role.isAdminRole()`: admin permissions, or the name contains
`admin`/`administrator` (case-insensitive). -/
def Role.isAdminRole (r : Role) : Bool :=
  hasAdminPermissions r.permissions ||
  containsSubstring (lowerStr r.name) "admin" ||
  containsSubstring (lowerStr r.name) "administrator"

/-- `Role.canBeDeleted()`: default roles cannot be deleted. -/
def Role.canBeDeleted (r : Role) : Bool := !r.isDefault

/-- `Role.validateForDeletion()`: throws `CannotDeleteDefaultRoleException`
when the role cannot be deleted. -/
def Role.validateForDeletion (r : Role) : Except DomainError Unit :=
  if !r.canBeDeleted then .error .cannotDeleteDefaultRole else .ok ()

/-- `Role.hasPermission(permissionId)`. -/
def Role.hasPermission (r : Role) (permissionId : String) : Bool :=
  r.permissions.any (·.id == permissionId)

/-- `Role.removePermission(permissionId)`: no-op if the permission is not
present, otherwise filter it out and bump `updatedAt`. -/
def Role.removePermission (r : Role) (permissionId : String) (now : Nat) : Role :=
  if !(r.permissions.any (·.id == permissionId)) then r
  else { r with permissions := r.permissions.filter (fun p => !(p.id == permissionId)),
                updatedAt := now }

/-- Duplicate-freeness enforced by `PermissionsCollection` construction:
no duplicate permission id and no duplicate permission name. -/
def Role.wellFormed (r : Role) : Prop :=
  (r.permissions.map Permission.id).Nodup ∧ (r.permissions.map Permission.key).Nodup

/-- `User` entity (`user.entity.ts`). -/
structure User where
  id : String
  email : String
  passwordHash : String
  firstName : String
  lastName : String
  isActive : Bool
  otpEnabled : Bool
  otpSecret : Option String
  roles : List Role
  lastLoginAt : Option Nat
  createdAt : Nat
  updatedAt : Nat
  deriving Repr, DecidableEq

/-- `User.create` factory: private constructor with `isActive = true`, no
roles, 2FA disabled, `createdAt` and `updatedAt` both set at construction
time. -/
def User.create (email passwordHash firstName lastName id : String) (now : Nat) : User :=
  { id := id, email := email, passwordHash := passwordHash,
    firstName := firstName, lastName := lastName,
    isActive := true, otpEnabled := false, otpSecret := none,
    roles := [], lastLoginAt := none, createdAt := now, updatedAt := now }

/-- The persistence record consumed by `User.fromData`. -/
structure UserData where
  id : String
  email : String
  passwordHash : String
  firstName : String
  lastName : String
  isActive : Bool
  otpEnabled : Bool
  otpSecret : Option String
  roles : List Role
  lastLoginAt : Option Nat
  createdAt : Nat
  updatedAt : Nat
  deriving Repr, DecidableEq

/-- `User.fromData` factory: runs the constructor with the stored
`isActive`/`createdAt`, then overwrites `otpEnabled`, `otpSecret`, `roles`,
`lastLoginAt` and `updatedAt` with the stored values, without validation. -/
def User.fromData (d : UserData) : User :=
  { id := d.id, email := d.email, passwordHash := d.passwordHash,
    firstName := d.firstName, lastName := d.lastName,
    isActive := d.isActive, otpEnabled := d.otpEnabled, otpSecret := d.otpSecret,
    roles := d.roles, lastLoginAt := d.lastLoginAt,
    createdAt := d.createdAt, updatedAt := d.updatedAt }

/-- `User.hasRole(roleId)`. -/
def User.hasRole (u : User) (roleId : String) : Bool :=
  u.roles.any (·.id == roleId)

/-- `RolesCollection.hasAdminPrivileges`: some role is an admin role. -/
def hasAdminPrivileges (rs : List Role) : Bool :=
  rs.any Role.isAdminRole

/-- `User.isEligibleForAdminRole()`: active and already holding admin
privileges. -/
def User.isEligibleForAdminRole (u : User) : Bool :=
  u.isActive && hasAdminPrivileges u.roles

/-- Duplicate-freeness enforced by `RolesCollection` construction (no
duplicate role id/name) together with well-formedness of each role's
permission list. -/
def User.rolesWellFormed (u : User) : Prop :=
  (u.roles.map Role.id).Nodup ∧
  (u.roles.map (fun r => lowerStr r.name)).Nodup ∧
  ∀ r ∈ u.roles, r.wellFormed

/-- `CanAssignRoleSpecification.isSatisfiedBy`
(`user.specifications.ts`): active, not already holding the role, and
admin roles require admin eligibility. -/
def canAssignRoleSpec (role : Role) (u : User) : Bool :=
  if !u.isActive then false
  else if u.hasRole role.id then false
  else if role.isAdminRole && !u.isEligibleForAdminRole then false
  else true

/-- `User.activate()`: no-op when already active. -/
def User.activate (u : User) (now : Nat) : User :=
  if u.isActive then u else { u with isActive := true, updatedAt := now }

/-- `User.deactivate()`: no-op when already inactive. -/
def User.deactivate (u : User) (now : Nat) : User :=
  if !u.isActive then u else { u with isActive := false, updatedAt := now }

/-- `User.enableTwoFactor(secret)`: rejects empty/blank secrets and inactive
users, otherwise sets the flag, stores the secret and bumps `updatedAt`
(no already-enabled early return). -/
def User.enableTwoFactor (u : User) (secret : String) (now : Nat) : Except DomainError User :=
  if secret == "" || trimStr secret == "" then
    .error (.invalidValueObject "Two-factor secret cannot be empty")
  else if !u.isActive then .error (.inactiveUser "enable two-factor authentication")
  else .ok { u with otpEnabled := true, otpSecret := some secret, updatedAt := now }

/-- `User.disableTwoFactor()`: no-op when already disabled. -/
def User.disableTwoFactor (u : User) (now : Nat) : User :=
  if !u.otpEnabled then u
  else { u with otpEnabled := false, otpSecret := none, updatedAt := now }

/-- `User.addRole(role)`: validated through `CanAssignRoleSpecification`;
on violation raises the first applicable of `InactiveUserException`,
`UserAlreadyHasRoleException`, `UserNotEligibleForRoleException`. -/
def User.addRole (u : User) (role : Role) (now : Nat) : Except DomainError User :=
  if !(canAssignRoleSpec role u) then
    if !u.isActive then .error (.inactiveUser "assign role")
    else if u.hasRole role.id then .error (.userAlreadyHasRole u.id role.name)
    else .error (.userNotEligibleForRole u.id role.name)
  else .ok { u with roles := u.roles ++ [role], updatedAt := now }

/-- `User.removeRole(roleId)`: requires an active user, forbids removing the
last role, then is a no-op when the id is not present. -/
def User.removeRole (u : User) (roleId : String) (now : Nat) : Except DomainError User :=
  if !u.isActive then .error (.inactiveUser "remove role")
  else if u.roles.length ≤ 1 then .error .userCannotRemoveLastRole
  else match u.roles.find? (·.id == roleId) with
    | none => .ok u
    | some _ => .ok { u with roles := u.roles.filter (fun r => !(r.id == roleId)),
                             updatedAt := now }

/-- `User.changeEmail(newEmail)`. -/
def User.changeEmail (u : User) (newEmail : String) (now : Nat) : Except DomainError User :=
  if !u.isActive then .error (.inactiveUser "change email")
  else if u.email == newEmail then .ok u
  else .ok { u with email := newEmail, updatedAt := now }

/-- `User.changePassword(newPasswordHash)`. -/
def User.changePassword (u : User) (newHash : String) (now : Nat) : Except DomainError User :=
  if newHash == "" || trimStr newHash == "" then
    .error (.invalidValueObject "Password hash cannot be empty")
  else if !u.isActive then .error (.inactiveUser "change password")
  else .ok { u with passwordHash := newHash, updatedAt := now }

/-- `User.updateLastLogin()`. -/
def User.updateLastLogin (u : User) (now : Nat) : User :=
  { u with lastLoginAt := some now, updatedAt := now }

/-- `User.updateProfile(firstName?, lastName?)`: bumps `updatedAt` only when
a provided name differs from the current one. -/
def User.updateProfile (u : User) (firstName? lastName? : Option String) (now : Nat) :
    Except DomainError User :=
  if !u.isActive then .error (.inactiveUser "update profile")
  else
    let fstep := match firstName? with
      | some fn => if fn != u.firstName then (fn, true) else (u.firstName, false)
      | none => (u.firstName, false)
    let lstep := match lastName? with
      | some ln => if ln != u.lastName then (ln, true) else (u.lastName, false)
      | none => (u.lastName, false)
    if fstep.2 || lstep.2 then
      .ok { u with firstName := fstep.1, lastName := lstep.1, updatedAt := now }
    else .ok u

/-- One business-method call on a `User`. -/
inductive UserOp where
  | activate
  | deactivate
  | enableTwoFactor (secret : String)
  | disableTwoFactor
  | addRole (role : Role)
  | removeRole (roleId : String)
  | changeEmail (email : String)
  | changePassword (hash : String)
  | updateLastLogin
  | updateProfile (firstName? lastName? : Option String)
  deriving Repr

/-- Apply one business-method call at time `now`; a thrown exception leaves
the entity unchanged (every method validates before mutating). -/
def User.runOp (u : User) (op : UserOp) (now : Nat) : User :=
  match op with
  | .activate => u.activate now
  | .deactivate => u.deactivate now
  | .enableTwoFactor s =>
    match u.enableTwoFactor s now with | .ok u' => u' | .error _ => u
  | .disableTwoFactor => u.disableTwoFactor now
  | .addRole r =>
    match u.addRole r now with | .ok u' => u' | .error _ => u
  | .removeRole rid =>
    match u.removeRole rid now with | .ok u' => u' | .error _ => u
  | .changeEmail e =>
    match u.changeEmail e now with | .ok u' => u' | .error _ => u
  | .changePassword h =>
    match u.changePassword h now with | .ok u' => u' | .error _ => u
  | .updateLastLogin => u.updateLastLogin now
  | .updateProfile f l =>
    match u.updateProfile f l now with | .ok u' => u' | .error _ => u

/-- Apply a sequence of timestamped business-method calls. -/
def User.runOps (u : User) (ops : List (UserOp × Nat)) : User :=
  ops.foldl (fun acc p => acc.runOp p.1 p.2) u

/-- Collaborators of `UserService.validateCredentials`: the repository
lookup, the bcrypt comparison, and Email-value-object acceptance.

Modelled from the spec: `email.vo.ts` is absent from the snapshot; the spec
says the Email VO "must match a standard email-address grammar", so Email
construction is abstracted as an arbitrary acceptance predicate
`emailValid` (its extension never matters for the claims). -/
structure CredentialsEnv where
  emailValid : String → Bool
  findByEmail : String → Option User
  passwordMatches : String → String → Bool

/-- `UserService.validateCredentials` (`user.service.ts`): the whole body is
wrapped in a try/catch that returns `null` on any thrown error, so the
function is total with `none` for every failing check: malformed email,
unknown email, inactive user, or failed hash comparison. -/
def validateCredentials (env : CredentialsEnv) (emailStr passwordStr : String) : Option User :=
  if !env.emailValid emailStr then none
  else
    match env.findByEmail emailStr with
    | none => none
    | some user =>
      if !user.isActive then none
      else if !env.passwordMatches passwordStr user.passwordHash then none
      else some user

/-- `RoleService.deleteRole` (`role.service.ts`), without a `deleterId`:
load the role, reject a default role with
`ForbiddenActionException('Cannot delete the default role')`, otherwise
delegate to the repository delete (modelled as returning `true`). -/
def RoleService.deleteRole (findRole : String → Option Role) (id : String) :
    Except DomainError Bool :=
  match findRole id with
  | none => .error (.entityNotFound "Role")
  | some role =>
    if role.isDefault then .error (.forbiddenAction "Cannot delete the default role")
    else .ok true

/-- One record of the throttler map: request count and window expiry
(epoch ms), from `throttler.service.ts`. -/
structure ThrottleRecord where
  count : Nat
  ttl : Nat
  deriving Repr, DecidableEq

/-- Modelled from the spec: `throttle-limit.vo.ts` is absent from the
snapshot; per the spec and its call sites it is a plain carrier of
`ttl` (seconds) and `limit` exposed through `getTtl`/`getLimit`. -/
structure ThrottleLimit where
  ttl : Nat
  limit : Nat
  deriving Repr, DecidableEq

/-- The throttler's in-memory `Map`, as an association list with at most one
entry per key. -/
abbrev ThrottlerState := List (String × ThrottleRecord)

/-- `Map.get`. -/
def getRecord (st : ThrottlerState) (k : String) : Option ThrottleRecord :=
  (st.find? (·.1 == k)).map (·.2)

/-- `Map.set`: replace in place, or append a fresh entry. -/
def setRecord (st : ThrottlerState) (k : String) (v : ThrottleRecord) : ThrottlerState :=
  if st.any (·.1 == k) then st.map (fun p => if p.1 == k then (k, v) else p)
  else st ++ [(k, v)]

/-- `Map.delete`. -/
def deleteRecord (st : ThrottlerState) (k : String) : ThrottlerState :=
  st.filter (fun p => !(p.1 == k))

/-- `cleanupExpiredRecords`: lazily drop every record whose window expired. -/
def cleanupExpiredRecords (now : Nat) (st : ThrottlerState) : ThrottlerState :=
  st.filter (fun p => !(now > p.2.ttl))

/-- `ThrottlerService.trackRequest`: empty identifier fails; fresh or
expired window restarts at count 1 with expiry `now + ttl·1000`; a full
window fails with `ThrottlingException` carrying the seconds until reset
(`Math.ceil((record.ttl - now) / 1000)`); otherwise increment. -/
def trackRequest (st : ThrottlerState) (identifier : String) (tl : ThrottleLimit) (now : Nat) :
    Except DomainError ThrottlerState :=
  if identifier == "" then .error .invalidThrottleIdentifier
  else
    let st := cleanupExpiredRecords now st
    match getRecord st identifier with
    | none => .ok (setRecord st identifier ⟨1, now + tl.ttl * 1000⟩)
    | some record =>
      if now > record.ttl then .ok (setRecord st identifier ⟨1, now + tl.ttl * 1000⟩)
      else if record.count ≥ tl.limit then
        .error (.throttlingExceeded ((record.ttl - now + 999) / 1000))
      else .ok (setRecord st identifier ⟨record.count + 1, record.ttl⟩)

/-- `ThrottlerService.getRemainingRequests`: returns the remaining quota
together with the (lazily cleaned) map state. -/
def getRemainingRequests (st : ThrottlerState) (identifier : String) (tl : ThrottleLimit)
    (now : Nat) : Except DomainError (Nat × ThrottlerState) :=
  if identifier == "" then .error .invalidThrottleIdentifier
  else
    let st := cleanupExpiredRecords now st
    match getRecord st identifier with
    | none => .ok (tl.limit, st)
    | some record =>
      if now > record.ttl then .ok (tl.limit, deleteRecord st identifier)
      else .ok (tl.limit - record.count, st)

/-- `ThrottlerService.resetThrottling`: empty identifier fails, otherwise
delete the record. -/
def resetThrottling (st : ThrottlerState) (identifier : String) :
    Except DomainError ThrottlerState :=
  if identifier == "" then .error .invalidThrottleIdentifier
  else .ok (deleteRecord st identifier)

/-- `ResourceType` enum values (`resource-action.vo.ts`). -/
def resourceTypeValues : List String := ["user", "role", "storage", "audit"]

/-- `ActionType` enum values. -/
def actionTypeValues : List String := ["read", "create", "update", "delete"]

/-- `parseResourceType`: enum membership, else
`InvalidValueObjectException('Invalid resource type')`. -/
def parseResourceType (resource : String) : Except DomainError String :=
  if resourceTypeValues.contains resource then .ok resource
  else .error (.invalidValueObject "Invalid resource type")

/-- `parseActionType`: enum membership, else
`InvalidValueObjectException('Invalid action type')`. -/
def parseActionType (action : String) : Except DomainError String :=
  if actionTypeValues.contains action then .ok action
  else .error (.invalidValueObject "Invalid action type")

/-- `isValidResource`: the regex `^[a-z0-9-]+$` together with non-emptiness. -/
def isValidResource (resource : String) : Bool :=
  resource.toList.all (fun c => ('a' ≤ c && c ≤ 'z') || ('0' ≤ c && c ≤ '9') || c == '-')
    && resource.length > 0

/-- The constructed `ResourceAction` value object. -/
structure ResourceAction where
  resource : String
  action : String
  deriving Repr, DecidableEq

/-- The `ResourceAction` constructor on string inputs (at runtime every
enum value is its string, so the string path is always taken): parse the
resource against the enum, re-check the regex, parse the action, then store
the lowercased resource. -/
def ResourceAction.construct (resource action : String) : Except DomainError ResourceAction :=
  match parseResourceType resource with
  | .error e => .error e
  | .ok r =>
    if !(isValidResource r) then .error (.invalidValueObject "Invalid resource name")
    else
      match parseActionType action with
      | .error e => .error e
      | .ok a => .ok ⟨lowerStr r, a⟩

/-- Case-insensitive hex digit (`[0-9a-f]` under the `/i` flag). -/
def isHexChar (c : Char) : Bool :=
  ('0' ≤ c && c ≤ '9') || ('a' ≤ c && c ≤ 'f') || ('A' ≤ c && c ≤ 'F')

/-- `Token.isValid` (`token.vo.ts`): the regex
`/^[0-9a-f]{8}-[0-9a-f]{4}-[1-5][0-9a-f]{3}-[89ab][0-9a-f]{3}-[0-9a-f]{12}$/i`,
transcribed position by position over the 36 characters. -/
def Token.isValid (s : String) : Bool :=
  let cs := s.toList
  cs.length == 36 &&
  (List.range 36).all (fun i =>
    let c := cs.getD i ' '
    if i == 8 || i == 13 || i == 18 || i == 23 then c == '-'
    else if i == 14 then '1' ≤ c && c ≤ '5'
    else if i == 19 then c == '8' || c == '9' || c == 'a' || c == 'b' || c == 'A' || c == 'B'
    else isHexChar c)

/-- The `Token` constructor: keep the string when the regex accepts it, else
`InvalidValueObjectException('Invalid token format')`. -/
def Token.construct (s : String) : Except DomainError String :=
  if Token.isValid s then .ok s else .error (.invalidValueObject "Invalid token format")

/-- Modelled from the spec: "Token must match canonical UUID v4 textual
form" — same shape as `Token.isValid` but with the version nibble fixed to
`4`, as RFC 4122 requires of a v4 UUID. -/
def uuidV4Canonical (s : String) : Bool :=
  let cs := s.toList
  cs.length == 36 &&
  (List.range 36).all (fun i =>
    let c := cs.getD i ' '
    if i == 8 || i == 13 || i == 18 || i == 23 then c == '-'
    else if i == 14 then c == '4'
    else if i == 19 then c == '8' || c == '9' || c == 'a' || c == 'b' || c == 'A' || c == 'B'
    else isHexChar c)

/-! ### Concrete instances used to evaluate the model -/

/-- A permission granting critical CRUD on `user` (an admin permission). -/
def userDeletePermission : Permission :=
  { id := "p1", resource := "user", action := "delete", description := "d",
    createdAt := 0, updatedAt := 0 }

/-- A harmless read permission. -/
def userReadPermission : Permission :=
  { id := "p2", resource := "user", action := "read", description := "d",
    createdAt := 0, updatedAt := 0 }

/-- A plain (non-admin, non-default) role. -/
def memberRole : Role :=
  { id := "r1", name := "member", description := "plain role",
    permissions := [userReadPermission], isDefault := false,
    createdAt := 0, updatedAt := 0 }

/-- A second plain role. -/
def viewerRole : Role :=
  { id := "r2", name := "viewer", description := "plain role",
    permissions := [], isDefault := false, createdAt := 0, updatedAt := 0 }

/-- An admin-type role: carries a critical CRUD permission on `user`. -/
def adminRole : Role :=
  { id := "r3", name := "ops", description := "ops role",
    permissions := [userDeletePermission], isDefault := false,
    createdAt := 0, updatedAt := 0 }

/-- The default role. -/
def defaultRole : Role :=
  { id := "r4", name := "basic", description := "default role",
    permissions := [], isDefault := true, createdAt := 0, updatedAt := 0 }

/-- An active user holding exactly one role. -/
def singleRoleUser : User :=
  { id := "u1", email := "a@b.com", passwordHash := "h", firstName := "A",
    lastName := "B", isActive := true, otpEnabled := false, otpSecret := none,
    roles := [memberRole], lastLoginAt := none, createdAt := 0, updatedAt := 0 }

/-- An active user holding two roles. -/
def twoRoleUser : User :=
  { singleRoleUser with id := "u2", roles := [memberRole, viewerRole] }

/-- An active user with two-factor authentication already enabled. -/
def twoFactorUser : User :=
  { singleRoleUser with id := "u3", otpEnabled := true, otpSecret := some "old-secret" }

/-- A persistence record whose stored `updatedAt` precedes its
`createdAt` (nothing in the source forbids it). -/
def skewedUserData : UserData :=
  { id := "u9", email := "e@b.com", passwordHash := "h",
    firstName := "F", lastName := "L", isActive := true, otpEnabled := false,
    otpSecret := none, roles := [], lastLoginAt := none,
    createdAt := 10, updatedAt := 3 }

/-! ### Theorems -/

/-- Every enum resource value passes the `^[a-z0-9-]+$` check, so the regex
re-check inside the constructor never fires. -/
theorem enum_resource_isValid {r : String} (h : resourceTypeValues.contains r = true) :
    isValidResource r = true := by
  have hm : r ∈ resourceTypeValues := by simpa using h
  simp only [resourceTypeValues, List.mem_cons, List.mem_singleton, List.not_mem_nil] at hm
  rcases hm with h | h | h | h | h <;> first | (subst h; decide) | cases h

/-- Claim C3 (amended): `activate()` on an already-active user,
`deactivate()` on an already-inactive user, `disableTwoFactor()` when 2FA
is already disabled, and `Role.removePermission` with an absent permission
id are exact no-ops (same state, same `updatedAt`, no error);
`User.removeRole` with an absent role id is a no-op only when the user is
active and holds at least two roles — otherwise it raises `InactiveUser` or
`UserCannotRemoveLastRole` instead of being a silent no-op. -/
theorem noop_idempotence (u : User) (r : Role) (pid rid : String) (now : Nat) :
    (u.isActive = true → u.activate now = u)
  ∧ (u.isActive = false → u.deactivate now = u)
  ∧ (u.otpEnabled = false → u.disableTwoFactor now = u)
  ∧ (r.hasPermission pid = false → r.removePermission pid now = r)
  ∧ (u.isActive = true → 2 ≤ u.roles.length → u.hasRole rid = false →
      u.removeRole rid now = .ok u) := by
  refine ⟨fun h => ?_, fun h => ?_, fun h => ?_, fun h => ?_, fun h1 h2 h3 => ?_⟩
  · simp [User.activate, h]
  · simp [User.deactivate, h]
  · simp [User.disableTwoFactor, h]
  · unfold Role.hasPermission at h
    simp [Role.removePermission, h]
  · have hfind : u.roles.find? (fun x => x.id == rid) = none := by
      rw [List.find?_eq_none]
      intro x hx
      unfold User.hasRole at h3
      have := List.any_eq_false.mp h3 x hx
      simpa using this
    have hlen : ¬ (u.roles.length ≤ 1) := by omega
    simp [User.removeRole, h1, hlen, hfind]

/-- Claim C3 witness: concrete no-op instances evaluated. -/
theorem noop_idempotence_witness :
    singleRoleUser.activate 9 = singleRoleUser ∧
    twoRoleUser.removeRole "missing" 9 = .ok twoRoleUser := by
  refine ⟨(noop_idempotence singleRoleUser memberRole "p9" "x" 9).1 (by decide),
          (noop_idempotence twoRoleUser memberRole "p9" "missing" 9).2.2.2.2
            (by decide) (by decide) (by decide)⟩

/-- Claim C3 counterexample: on an active user holding exactly one role,
`removeRole` with an id that is **not** present still raises
`UserCannotRemoveLastRole` — it is not an error-free no-op. -/
theorem removeRole_absent_id_raises :
    singleRoleUser.hasRole "missing" = false ∧
    singleRoleUser.isActive = true ∧
    singleRoleUser.removeRole "missing" 5 = .error DomainError.userCannotRemoveLastRole := by
  refine ⟨by decide, by decide, by decide⟩

/-- Claim C6 (amended): `canBeDeleted()` is exactly the negation of
`isDefault`, and `Role.validateForDeletion` raises
`CannotDeleteDefaultRole` on a default role; but `RoleService.deleteRole`
(which never calls `validateForDeletion`) rejects a default role with
`ForbiddenAction("Cannot delete the default role")` and deletes any
non-default role. -/
theorem role_deletion_policy (r : Role) (findRole : String → Option Role) (id : String)
    (hfind : findRole id = some r) :
    (r.canBeDeleted = true ↔ r.isDefault = false)
  ∧ (r.isDefault = true → r.validateForDeletion = .error .cannotDeleteDefaultRole)
  ∧ (r.isDefault = true → RoleService.deleteRole findRole id
      = .error (.forbiddenAction "Cannot delete the default role"))
  ∧ (r.isDefault = false → RoleService.deleteRole findRole id = .ok true) := by
  refine ⟨?_, fun h => ?_, fun h => ?_, fun h => ?_⟩
  · simp [Role.canBeDeleted]
  · simp [Role.validateForDeletion, Role.canBeDeleted, h]
  · simp [RoleService.deleteRole, hfind, h]
  · simp [RoleService.deleteRole, hfind, h]

/-- Claim C6 witness: the default role evaluated through the policy. -/
theorem role_deletion_policy_witness :
    RoleService.deleteRole (fun j => if j == "r4" then some defaultRole else none) "r4"
      = .error (.forbiddenAction "Cannot delete the default role") :=
  (role_deletion_policy defaultRole
    (fun j => if j == "r4" then some defaultRole else none) "r4" (by decide)).2.2.1 (by decide)

/-- Claim C6 counterexample: deleting the default role through
`RoleService.deleteRole` surfaces `ForbiddenAction`, not the
`CannotDeleteDefaultRole` error the claim names. -/
theorem deleteRole_default_role_error_class :
    RoleService.deleteRole (fun _ => some defaultRole) "r4"
      = .error (.forbiddenAction "Cannot delete the default role")
  ∧ RoleService.deleteRole (fun _ => some defaultRole) "r4"
      ≠ .error DomainError.cannotDeleteDefaultRole := by
  refine ⟨by decide, by decide⟩

/-- Claim C8 (amended): `ResourceAction` construction succeeds iff the
resource is one of the four `ResourceType` enum values and the action one
of the four `ActionType` values; every other input fails immediately with
an `InvalidValueObject` error — in particular arbitrary non-enum
lowercase-alphanumeric-hyphen resource strings are rejected, because
`parseResourceType` runs before the regex check. -/
theorem resourceAction_enum_only (r a : String) :
    ((∃ ra, ResourceAction.construct r a = .ok ra) ↔
      resourceTypeValues.contains r = true ∧ actionTypeValues.contains a = true)
  ∧ (resourceTypeValues.contains r = false →
      ResourceAction.construct r a = .error (.invalidValueObject "Invalid resource type"))
  ∧ (resourceTypeValues.contains r = true → actionTypeValues.contains a = false →
      ResourceAction.construct r a = .error (.invalidValueObject "Invalid action type")) := by
  by_cases hrm : r ∈ resourceTypeValues
  · have hr : resourceTypeValues.contains r = true := by simpa using hrm
    have hv := enum_resource_isValid hr
    by_cases ham : a ∈ actionTypeValues
    · have ha : actionTypeValues.contains a = true := by simpa using ham
      refine ⟨?_, fun hc => ?_, fun _ hc => ?_⟩
      · simp [ResourceAction.construct, parseResourceType, parseActionType, hrm, ham, hv]
      · simp at hc
        exact absurd hrm hc
      · simp at hc
        exact absurd ham hc
    · have ha : actionTypeValues.contains a = false := by simpa using ham
      refine ⟨?_, fun hc => ?_, fun _ _ => ?_⟩
      · simp [ResourceAction.construct, parseResourceType, parseActionType, hrm, ham, hv]
      · simp at hc
        exact absurd hrm hc
      · simp [ResourceAction.construct, parseResourceType, parseActionType, hrm, ham, hv]
  · have hr : resourceTypeValues.contains r = false := by simpa using hrm
    refine ⟨?_, fun _ => ?_, fun hc _ => ?_⟩
    · simp [ResourceAction.construct, parseResourceType, hrm]
    · simp [ResourceAction.construct, parseResourceType, hrm]
    · simp at hc
      exact absurd hc hrm

/-- Claim C8 witness: an enum pair constructs; an out-of-enum action fails
fast. -/
theorem resourceAction_enum_only_witness :
    (∃ ra, ResourceAction.construct "user" "read" = .ok ra) ∧
    ResourceAction.construct "user" "write"
      = .error (.invalidValueObject "Invalid action type") :=
  ⟨(resourceAction_enum_only "user" "read").1.mpr ⟨by decide, by decide⟩,
   (resourceAction_enum_only "user" "write").2.2 (by decide) (by decide)⟩

/-- Claim C8 counterexample: `custom-res` is non-empty, lowercase
alphanumeric/hyphen, paired with the enum action `read`, yet construction
fails with `Invalid resource type`. -/
theorem resourceAction_rejects_custom_resource :
    isValidResource "custom-res" = true ∧
    actionTypeValues.contains "read" = true ∧
    ResourceAction.construct "custom-res" "read"
      = .error (.invalidValueObject "Invalid resource type") := by
  refine ⟨by decide, by decide, by decide⟩

/-- Claim C10 (amended): on an active user whose 2FA is already enabled,
`enableTwoFactor` with a non-blank secret (non-empty after trimming —
whitespace-only secrets are rejected) is not a no-op: it overwrites
`otpSecret` and sets `updatedAt` to the call time, leaving every other
field unchanged. -/
theorem enableTwoFactor_overwrite (u : User) (s : String) (now : Nat)
    (hact : u.isActive = true) (hotp : u.otpEnabled = true) (hs : trimStr s ≠ "") :
    ∃ u', u.enableTwoFactor s now = .ok u' ∧
      u'.otpEnabled = true ∧ u'.otpSecret = some s ∧ u'.updatedAt = now ∧
      u'.id = u.id ∧ u'.email = u.email ∧ u'.passwordHash = u.passwordHash ∧
      u'.firstName = u.firstName ∧ u'.lastName = u.lastName ∧
      u'.isActive = u.isActive ∧ u'.roles = u.roles ∧
      u'.lastLoginAt = u.lastLoginAt ∧ u'.createdAt = u.createdAt := by
  have h1 : s ≠ "" := by
    intro he
    subst he
    exact hs (by decide)
  refine ⟨{ u with otpEnabled := true, otpSecret := some s, updatedAt := now },
    ?_, rfl, rfl, rfl, rfl, rfl, rfl, rfl, rfl, by simp [hact], rfl, rfl, rfl⟩
  simp [User.enableTwoFactor, h1, hs, hact]

/-- Claim C10 witness: overwriting the stored secret of a 2FA-enabled
user. -/
theorem enableTwoFactor_overwrite_witness :
    ∃ u', twoFactorUser.enableTwoFactor "new-secret" 9 = .ok u' ∧
      u'.otpEnabled = true ∧ u'.otpSecret = some "new-secret" ∧ u'.updatedAt = 9 ∧
      u'.id = twoFactorUser.id ∧ u'.email = twoFactorUser.email ∧
      u'.passwordHash = twoFactorUser.passwordHash ∧
      u'.firstName = twoFactorUser.firstName ∧ u'.lastName = twoFactorUser.lastName ∧
      u'.isActive = twoFactorUser.isActive ∧ u'.roles = twoFactorUser.roles ∧
      u'.lastLoginAt = twoFactorUser.lastLoginAt ∧
      u'.createdAt = twoFactorUser.createdAt :=
  enableTwoFactor_overwrite twoFactorUser "new-secret" 9 (by decide) (by decide) (by decide)

/-- Claim C10 counterexample: the secret `" "` is a non-empty string, yet
`enableTwoFactor(" ")` on an active 2FA-enabled user raises
`InvalidValueObject` instead of overwriting `otpSecret`. -/
theorem enableTwoFactor_blank_secret :
    (" " : String) ≠ "" ∧ twoFactorUser.isActive = true ∧
    twoFactorUser.otpEnabled = true ∧
    twoFactorUser.enableTwoFactor " " 7
      = .error (.invalidValueObject "Two-factor secret cannot be empty") := by
  refine ⟨by decide, by decide, by decide, by decide⟩

/-- Filtering out the single occurrence of a key from a list whose keys are
duplicate-free shrinks the length by exactly one. -/
theorem length_filter_erase_one {α β : Type} [DecidableEq β] (f : α → β) (l : List α) (c : β)
    (hnd : (l.map f).Nodup) (hc : c ∈ l.map f) :
    (l.filter (fun x => !(f x == c))).length + 1 = l.length := by
  induction l with
  | nil => simp at hc
  | cons a t ih =>
    simp only [List.map_cons, List.nodup_cons] at hnd
    obtain ⟨hna, hndt⟩ := hnd
    by_cases hfa : f a = c
    · subst hfa
      have hrest : t.filter (fun x => !(f x == f a)) = t := by
        apply List.filter_eq_self.mpr
        intro x hx
        have hne : f x ≠ f a := by
          intro he
          exact hna (he ▸ List.mem_map_of_mem f hx)
        simp [hne]
      simp [List.filter_cons, hrest]
    · have hct : c ∈ t.map f := by
        rcases List.mem_cons.mp hc with h | h
        · exact absurd h.symm hfa
        · exact h
      have hcond : (f a == c) = false := by simp [hfa]
      have hih := ih hndt hct
      simp [List.filter_cons, hcond]
      omega

/-- Claim C2: for an active user, removing the id of the user's only role
always fails with `UserCannotRemoveLastRole` and leaves the user unchanged;
removing the id of one of the roles of a user holding at least two roles
(with set-like, duplicate-free role ids) succeeds and shrinks the role set
by exactly one. -/
theorem removeRole_last_role_policy (u : User) (now : Nat) (hact : u.isActive = true) :
    (∀ r, u.roles = [r] →
        u.removeRole r.id now = .error .userCannotRemoveLastRole ∧
        u.runOp (.removeRole r.id) now = u)
  ∧ ((u.roles.map Role.id).Nodup → 2 ≤ u.roles.length → ∀ r ∈ u.roles,
      ∃ u', u.removeRole r.id now = .ok u' ∧ u'.roles.length + 1 = u.roles.length) := by
  constructor
  · intro r hr
    have hlen : u.roles.length ≤ 1 := by rw [hr]; simp
    constructor
    · simp [User.removeRole, hact, hlen]
    · simp [User.runOp, User.removeRole, hact, hlen]
  · intro hnd hlen r hr
    have hlen' : ¬ (u.roles.length ≤ 1) := by omega
    have hsome : (u.roles.find? (fun x => x.id == r.id)).isSome := by
      rw [List.find?_isSome]
      exact ⟨r, hr, by simp⟩
    obtain ⟨x, hx⟩ := Option.isSome_iff_exists.mp hsome
    refine ⟨{ u with roles := u.roles.filter (fun x => !(x.id == r.id)), updatedAt := now },
      ?_, ?_⟩
    · simp [User.removeRole, hact, hlen', hx]
    · exact length_filter_erase_one Role.id u.roles r.id hnd (List.mem_map_of_mem _ hr)

/-- Claim C2 witness: a two-role user loses exactly one role; a one-role
user cannot lose its role. -/
theorem removeRole_last_role_policy_witness :
    (singleRoleUser.removeRole memberRole.id 5 = .error .userCannotRemoveLastRole ∧
      singleRoleUser.runOp (.removeRole memberRole.id) 5 = singleRoleUser) ∧
    ∃ u', twoRoleUser.removeRole memberRole.id 5 = .ok u' ∧
      u'.roles.length + 1 = twoRoleUser.roles.length :=
  ⟨(removeRole_last_role_policy singleRoleUser 5 (by decide)).1 memberRole (by decide),
   (removeRole_last_role_policy twoRoleUser 5 (by decide)).2 (by decide) (by decide)
     memberRole (by decide)⟩

/-- Claim C4: `validateCredentials` is total (the body is wrapped in a
catch-all returning null): it returns the user exactly when the email is
accepted by the Email VO, the repository finds an active user under it and
the hash comparison succeeds; on every failing check it returns `none`, so
the result does not reveal which check failed. -/
theorem validateCredentials_total (env : CredentialsEnv) (e p : String) :
    (∀ u, validateCredentials env e p = some u ↔
      (env.emailValid e = true ∧ env.findByEmail e = some u ∧ u.isActive = true ∧
        env.passwordMatches p u.passwordHash = true))
  ∧ (env.emailValid e = false → validateCredentials env e p = none)
  ∧ (env.findByEmail e = none → validateCredentials env e p = none)
  ∧ (∀ u, env.findByEmail e = some u → u.isActive = false →
      validateCredentials env e p = none)
  ∧ (∀ u, env.findByEmail e = some u → env.passwordMatches p u.passwordHash = false →
      validateCredentials env e p = none) := by
  refine ⟨fun u => ⟨?_, ?_⟩, fun h => ?_, fun h => ?_, fun u hu hi => ?_, fun u hu hp => ?_⟩
  · intro h
    unfold validateCredentials at h
    split at h
    · cases h
    · next hev =>
      split at h
      · cases h
      · next user heq =>
        split at h
        · cases h
        · next hua =>
          split at h
          · cases h
          · next hpm =>
            obtain rfl : user = u := by injection h
            exact ⟨by simpa using hev, heq, by simpa using hua, by simpa using hpm⟩
  · rintro ⟨hev, hf, hua, hpm⟩
    simp [validateCredentials, hev, hf, hua, hpm]
  · simp [validateCredentials, h]
  · simp [validateCredentials, h, ite_self]
  · simp [validateCredentials, hu, hi, ite_self]
  · simp [validateCredentials, hu, hp, ite_self]

/-- Claim C4 witness: a concrete environment evaluated on a good and a bad
password. -/
theorem validateCredentials_total_witness :
    validateCredentials
      { emailValid := fun s => s == "a@b.com",
        findByEmail := fun s => if s == "a@b.com" then some singleRoleUser else none,
        passwordMatches := fun pw h => pw == "pw" && h == "h" } "a@b.com" "pw"
      = some singleRoleUser ∧
    validateCredentials
      { emailValid := fun s => s == "a@b.com",
        findByEmail := fun s => if s == "a@b.com" then some singleRoleUser else none,
        passwordMatches := fun pw h => pw == "pw" && h == "h" } "a@b.com" "wrong"
      = none :=
  ⟨((validateCredentials_total
      { emailValid := fun s => s == "a@b.com",
        findByEmail := fun s => if s == "a@b.com" then some singleRoleUser else none,
        passwordMatches := fun pw h => pw == "pw" && h == "h" } "a@b.com" "pw").1
      singleRoleUser).mpr ⟨by decide, by decide, by decide, by decide⟩,
   (validateCredentials_total
      { emailValid := fun s => s == "a@b.com",
        findByEmail := fun s => if s == "a@b.com" then some singleRoleUser else none,
        passwordMatches := fun pw h => pw == "pw" && h == "h" } "a@b.com" "wrong").2.2.2.2
      singleRoleUser (by decide) (by decide)⟩

/-- Claim C1: `addRole` succeeds exactly when the user is active, does not
already hold the role, and the role is either not admin-type or the user is
admin-eligible; on every violating pair the raised error is determined —
`InactiveUser` for inactive users, else `UserAlreadyHasRole` for a held
role, else `UserNotEligibleForRole` — and the user (hence the role set) is
unchanged.  The well-formedness hypotheses mark the domain in which the
collection constructors of the source raise no duplicate errors. -/
theorem addRole_policy (u : User) (role : Role) (now : Nat)
    (hwfu : u.rolesWellFormed) (hwfr : role.wellFormed) :
    ((∃ u', u.addRole role now = .ok u') ↔
      (u.isActive = true ∧ u.hasRole role.id = false ∧
        (role.isAdminRole = false ∨ u.isEligibleForAdminRole = true)))
  ∧ (∀ u', u.addRole role now = .ok u' →
      u'.roles = u.roles ++ [role] ∧ u'.updatedAt = now)
  ∧ (u.isActive = false →
      u.addRole role now = .error (.inactiveUser "assign role") ∧
      u.runOp (.addRole role) now = u)
  ∧ (u.isActive = true → u.hasRole role.id = true →
      u.addRole role now = .error (.userAlreadyHasRole u.id role.name) ∧
      u.runOp (.addRole role) now = u)
  ∧ (u.isActive = true → u.hasRole role.id = false → role.isAdminRole = true →
      u.isEligibleForAdminRole = false →
      u.addRole role now = .error (.userNotEligibleForRole u.id role.name) ∧
      u.runOp (.addRole role) now = u) := by
  cases hact : u.isActive with
  | false =>
    refine ⟨?_, ?_, ?_, ?_, ?_⟩ <;>
      simp [User.addRole, User.runOp, canAssignRoleSpec, hact]
  | true =>
    cases hhas : u.hasRole role.id with
    | true =>
      refine ⟨?_, ?_, ?_, ?_, ?_⟩ <;>
        simp [User.addRole, User.runOp, canAssignRoleSpec, hact, hhas]
    | false =>
      cases hadm : role.isAdminRole with
      | false =>
        refine ⟨?_, ?_, ?_, ?_, ?_⟩ <;>
          simp [User.addRole, User.runOp, canAssignRoleSpec, hact, hhas, hadm]
      | true =>
        cases hel : u.isEligibleForAdminRole with
        | false =>
          refine ⟨?_, ?_, ?_, ?_, ?_⟩ <;>
            simp [User.addRole, User.runOp, canAssignRoleSpec, hact, hhas, hadm, hel]
        | true =>
          refine ⟨?_, ?_, ?_, ?_, ?_⟩ <;>
            simp [User.addRole, User.runOp, canAssignRoleSpec, hact, hhas, hadm, hel]

/-- `singleRoleUser` is within the duplicate-free domain. -/
theorem singleRoleUser_wellFormed : singleRoleUser.rolesWellFormed := by
  simp only [User.rolesWellFormed, Role.wellFormed]
  decide

/-- `adminRole` is within the duplicate-free domain. -/
theorem adminRole_wellFormed : adminRole.wellFormed := by
  simp only [Role.wellFormed]
  decide

/-- Claim C1 witness: an active non-admin-eligible user attempting to take
an admin-type role fails with `UserNotEligibleForRole` and keeps its role
set. -/
theorem addRole_policy_witness :
    singleRoleUser.addRole adminRole 5
      = .error (.userNotEligibleForRole singleRoleUser.id adminRole.name) ∧
    singleRoleUser.runOp (.addRole adminRole) 5 = singleRoleUser :=
  (addRole_policy singleRoleUser adminRole 5 singleRoleUser_wellFormed
    adminRole_wellFormed).2.2.2.2 (by decide) (by decide) (by decide) (by decide)

/-- The version nibble of a canonical v4 UUID lies in the `[1-5]` class the
code's regex accepts, so v4 acceptance follows position by position. -/
theorem token_isValid_of_v4 {s : String} (h : uuidV4Canonical s = true) :
    Token.isValid s = true := by
  unfold uuidV4Canonical at h
  unfold Token.isValid
  rw [Bool.and_eq_true] at h ⊢
  obtain ⟨hlen, hall⟩ := h
  refine ⟨hlen, ?_⟩
  rw [List.all_eq_true] at hall ⊢
  intro i hi
  have hx := hall i hi
  by_cases h8 : (i == 8 || i == 13 || i == 18 || i == 23) = true
  · simpa [h8] using hx
  · have h8' : (i == 8 || i == 13 || i == 18 || i == 23) = false := by simpa using h8
    by_cases h14 : (i == 14) = true
    · simp only [h8', h14, Bool.false_eq_true, if_false, if_true] at hx ⊢
      have hc : s.toList.getD i ' ' = '4' := by simpa using hx
      rw [hc]
      decide
    · have h14' : (i == 14) = false := by simpa using h14
      simpa [h8', h14'] using hx

/-- Claim C9 (amended): `Token(s)` succeeds iff `s` matches the code's UUID
pattern — version digit 1–5 and variant nibble 8/9/a/b, case-insensitive —
which is a strict superset of canonical v4: every canonical v4 string is
accepted, but versions 1, 2, 3 and 5 are accepted too; every string outside
the pattern is rejected with a validation error. -/
theorem token_construction (s : String) :
    (Token.construct s = .ok s ↔ Token.isValid s = true)
  ∧ (Token.isValid s = false →
      Token.construct s = .error (.invalidValueObject "Invalid token format"))
  ∧ (uuidV4Canonical s = true → Token.construct s = .ok s) := by
  refine ⟨⟨?_, ?_⟩, fun h => ?_, fun h => ?_⟩
  · intro h
    by_cases hv : Token.isValid s = true
    · exact hv
    · have hv' : Token.isValid s = false := by simpa using hv
      simp [Token.construct, hv'] at h
  · intro hv
    simp [Token.construct, hv]
  · simp [Token.construct, h]
  · simp [Token.construct, token_isValid_of_v4 h]

/-- Claim C9 witness: a canonical v4 UUID accepted via the theorem. -/
theorem token_construction_witness :
    Token.construct "550e8400-e29b-41d4-a716-446655440005"
      = .ok "550e8400-e29b-41d4-a716-446655440005" :=
  (token_construction "550e8400-e29b-41d4-a716-446655440005").2.2 (by decide)

/-- Claim C9 counterexample: a version-1 UUID is accepted by the Token
constructor although it is not of canonical v4 form. -/
theorem token_accepts_non_v4 :
    Token.construct "00000000-0000-1000-8000-000000000000"
      = .ok "00000000-0000-1000-8000-000000000000"
  ∧ uuidV4Canonical "00000000-0000-1000-8000-000000000000" = false := by
  exact ⟨by decide, by decide⟩

/-- Frame fact for `enableTwoFactor`: a successful call keeps `createdAt`
and stamps `updatedAt` with the call time. -/
theorem frame_enableTwoFactor (u : User) (s : String) (now : Nat) (u' : User)
    (h : u.enableTwoFactor s now = .ok u') :
    u'.createdAt = u.createdAt ∧ (u'.updatedAt = u.updatedAt ∨ u'.updatedAt = now) := by
  unfold User.enableTwoFactor at h
  split at h
  · cases h
  · split at h
    · cases h
    · injection h with h
      subst h
      exact ⟨rfl, Or.inr rfl⟩

/-- Frame fact for `addRole`. -/
theorem frame_addRole (u : User) (r : Role) (now : Nat) (u' : User)
    (h : u.addRole r now = .ok u') :
    u'.createdAt = u.createdAt ∧ (u'.updatedAt = u.updatedAt ∨ u'.updatedAt = now) := by
  unfold User.addRole at h
  split at h
  · split at h
    · cases h
    · split at h <;> cases h
  · injection h with h
    subst h
    exact ⟨rfl, Or.inr rfl⟩

/-- Frame fact for `removeRole`. -/
theorem frame_removeRole (u : User) (rid : String) (now : Nat) (u' : User)
    (h : u.removeRole rid now = .ok u') :
    u'.createdAt = u.createdAt ∧ (u'.updatedAt = u.updatedAt ∨ u'.updatedAt = now) := by
  unfold User.removeRole at h
  split at h
  · cases h
  · split at h
    · cases h
    · split at h
      · injection h with h
        subst h
        exact ⟨rfl, Or.inl rfl⟩
      · injection h with h
        subst h
        exact ⟨rfl, Or.inr rfl⟩

/-- Frame fact for `changeEmail`. -/
theorem frame_changeEmail (u : User) (e : String) (now : Nat) (u' : User)
    (h : u.changeEmail e now = .ok u') :
    u'.createdAt = u.createdAt ∧ (u'.updatedAt = u.updatedAt ∨ u'.updatedAt = now) := by
  unfold User.changeEmail at h
  split at h
  · cases h
  · split at h
    · injection h with h
      subst h
      exact ⟨rfl, Or.inl rfl⟩
    · injection h with h
      subst h
      exact ⟨rfl, Or.inr rfl⟩

/-- Frame fact for `changePassword`. -/
theorem frame_changePassword (u : User) (hash : String) (now : Nat) (u' : User)
    (h : u.changePassword hash now = .ok u') :
    u'.createdAt = u.createdAt ∧ (u'.updatedAt = u.updatedAt ∨ u'.updatedAt = now) := by
  unfold User.changePassword at h
  split at h
  · cases h
  · split at h
    · cases h
    · injection h with h
      subst h
      exact ⟨rfl, Or.inr rfl⟩

/-- Frame fact for `updateProfile`. -/
theorem frame_updateProfile (u : User) (f? l? : Option String) (now : Nat) (u' : User)
    (h : u.updateProfile f? l? now = .ok u') :
    u'.createdAt = u.createdAt ∧ (u'.updatedAt = u.updatedAt ∨ u'.updatedAt = now) := by
  unfold User.updateProfile at h
  split at h
  · cases h
  · repeat' split at h
    all_goals injection h with h
    all_goals subst h
    all_goals
      first
      | exact ⟨rfl, Or.inr rfl⟩
      | exact ⟨rfl, Or.inl rfl⟩

/-- Every business method keeps `createdAt` and either keeps `updatedAt` or
sets it to the call time. -/
theorem runOp_frame (u : User) (op : UserOp) (now : Nat) :
    (u.runOp op now).createdAt = u.createdAt ∧
    ((u.runOp op now).updatedAt = u.updatedAt ∨ (u.runOp op now).updatedAt = now) := by
  cases op with
  | activate =>
    simp only [User.runOp, User.activate]
    split
    · exact ⟨rfl, Or.inl rfl⟩
    · exact ⟨rfl, Or.inr rfl⟩
  | deactivate =>
    simp only [User.runOp, User.deactivate]
    split
    · exact ⟨rfl, Or.inl rfl⟩
    · exact ⟨rfl, Or.inr rfl⟩
  | disableTwoFactor =>
    simp only [User.runOp, User.disableTwoFactor]
    split
    · exact ⟨rfl, Or.inl rfl⟩
    · exact ⟨rfl, Or.inr rfl⟩
  | updateLastLogin => exact ⟨rfl, Or.inr rfl⟩
  | enableTwoFactor s =>
    simp only [User.runOp]
    cases h : u.enableTwoFactor s now with
    | ok u' => exact frame_enableTwoFactor u s now u' h
    | error e => exact ⟨rfl, Or.inl rfl⟩
  | addRole r =>
    simp only [User.runOp]
    cases h : u.addRole r now with
    | ok u' => exact frame_addRole u r now u' h
    | error e => exact ⟨rfl, Or.inl rfl⟩
  | removeRole rid =>
    simp only [User.runOp]
    cases h : u.removeRole rid now with
    | ok u' => exact frame_removeRole u rid now u' h
    | error e => exact ⟨rfl, Or.inl rfl⟩
  | changeEmail e =>
    simp only [User.runOp]
    cases h : u.changeEmail e now with
    | ok u' => exact frame_changeEmail u e now u' h
    | error e => exact ⟨rfl, Or.inl rfl⟩
  | changePassword hash =>
    simp only [User.runOp]
    cases h : u.changePassword hash now with
    | ok u' => exact frame_changePassword u hash now u' h
    | error e => exact ⟨rfl, Or.inl rfl⟩
  | updateProfile f? l? =>
    simp only [User.runOp]
    cases h : u.updateProfile f? l? now with
    | ok u' => exact frame_updateProfile u f? l? now u' h
    | error e => exact ⟨rfl, Or.inl rfl⟩

/-- Business methods never change `createdAt`. -/
theorem runOp_createdAt (u : User) (op : UserOp) (now : Nat) :
    (u.runOp op now).createdAt = u.createdAt :=
  (runOp_frame u op now).1

/-- A business method either keeps `updatedAt` or sets it to the call
time. -/
theorem runOp_updatedAt (u : User) (op : UserOp) (now : Nat) :
    (u.runOp op now).updatedAt = u.updatedAt ∨ (u.runOp op now).updatedAt = now :=
  (runOp_frame u op now).2

/-- The invariant `createdAt ≤ updatedAt` is preserved by any sequence of
business calls performed at times at or after creation. -/
theorem runOps_invariant (ops : List (UserOp × Nat)) :
    ∀ u : User, u.createdAt ≤ u.updatedAt → (∀ q ∈ ops, u.createdAt ≤ q.2) →
      (u.runOps ops).createdAt ≤ (u.runOps ops).updatedAt := by
  induction ops with
  | nil => intro u h _; exact h
  | cons p rest ih =>
    intro u h hall
    have hstep : (u.runOp p.1 p.2).createdAt ≤ (u.runOp p.1 p.2).updatedAt := by
      rw [runOp_createdAt]
      rcases runOp_updatedAt u p.1 p.2 with he | he
      · rw [he]; exact h
      · rw [he]; exact hall p (by simp)
    have hc := runOp_createdAt u p.1 p.2
    have hstepEq : (u.runOps (p :: rest)) = ((u.runOp p.1 p.2).runOps rest) := rfl
    rw [hstepEq]
    exact ih _ hstep (fun q hq => by rw [hc]; exact hall q (List.mem_cons_of_mem p hq))

/-- Claim C7 (amended): a user obtained from `create` satisfies
`updatedAt ≥ createdAt` after every sequence of business-method calls made
at times at or after creation; a user from `fromData` satisfies it only
when the persisted record already does — `fromData` copies `updatedAt`
without validating it against `createdAt`. -/
theorem user_timestamps_invariant :
    (∀ (e ph fn ln uid : String) (t0 : Nat) (ops : List (UserOp × Nat)),
      (∀ q ∈ ops, t0 ≤ q.2) →
      ((User.create e ph fn ln uid t0).runOps ops).createdAt ≤
        ((User.create e ph fn ln uid t0).runOps ops).updatedAt)
  ∧ (∀ (d : UserData) (ops : List (UserOp × Nat)),
      d.createdAt ≤ d.updatedAt → (∀ q ∈ ops, d.createdAt ≤ q.2) →
      ((User.fromData d).runOps ops).createdAt ≤
        ((User.fromData d).runOps ops).updatedAt) := by
  constructor
  · intro e ph fn ln uid t0 ops hall
    exact runOps_invariant ops _ le_rfl hall
  · intro d ops h hall
    exact runOps_invariant ops _ h hall

/-- Claim C7 witness: a freshly created user after one later call. -/
theorem user_timestamps_invariant_witness :
    ((User.create "a@b.com" "h" "F" "L" "u9" 5).runOps
        [(UserOp.updateLastLogin, 6)]).createdAt ≤
      ((User.create "a@b.com" "h" "F" "L" "u9" 5).runOps
        [(UserOp.updateLastLogin, 6)]).updatedAt :=
  user_timestamps_invariant.1 "a@b.com" "h" "F" "L" "u9" 5
    [(UserOp.updateLastLogin, 6)] (by decide)

/-- Claim C7 counterexample: `fromData` accepts a record with
`updatedAt < createdAt` and yields a violating user with no business calls
at all. -/
theorem fromData_breaks_timestamps_invariant :
    skewedUserData.createdAt = 10 ∧ skewedUserData.updatedAt = 3 ∧
    ¬ (((User.fromData skewedUserData).runOps []).createdAt ≤
        ((User.fromData skewedUserData).runOps []).updatedAt) := by
  refine ⟨rfl, rfl, by decide⟩

/-- Claim C5: with limit 2 and ttl 60 s on the fresh identifier `x`, two
`trackRequest` calls succeed, a third inside the window fails with
`ThrottlingExceeded` (carrying the seconds until reset),
`getRemainingRequests` then returns 0, and after `resetThrottling` it
returns 2 again. -/
theorem throttler_limit2_scenario (t1 t2 t3 t4 t5 : Nat)
    (h12 : t1 ≤ t2) (h23 : t2 ≤ t3) (h34 : t3 ≤ t4) (hwin : t4 ≤ t1 + 60000) :
    trackRequest [] "x" ⟨60, 2⟩ t1 = .ok [("x", ⟨1, t1 + 60000⟩)]
  ∧ trackRequest [("x", ⟨1, t1 + 60000⟩)] "x" ⟨60, 2⟩ t2 = .ok [("x", ⟨2, t1 + 60000⟩)]
  ∧ trackRequest [("x", ⟨2, t1 + 60000⟩)] "x" ⟨60, 2⟩ t3
      = .error (.throttlingExceeded ((t1 + 60000 - t3 + 999) / 1000))
  ∧ getRemainingRequests [("x", ⟨2, t1 + 60000⟩)] "x" ⟨60, 2⟩ t4
      = .ok (0, [("x", ⟨2, t1 + 60000⟩)])
  ∧ resetThrottling [("x", ⟨2, t1 + 60000⟩)] "x" = .ok []
  ∧ getRemainingRequests [] "x" ⟨60, 2⟩ t5 = .ok (2, []) := by
  have hxe : (("x" : String) == "") = false := by decide
  have hxx : (("x" : String) == "x") = true := by decide
  have hk2 : ¬ (t2 > t1 + 60000) := by omega
  have hk3 : ¬ (t3 > t1 + 60000) := by omega
  have hk4 : ¬ (t4 > t1 + 60000) := by omega
  refine ⟨?_, ?_, ?_, ?_, ?_, ?_⟩
  · simp [trackRequest, cleanupExpiredRecords, getRecord, setRecord, hxe]
  · simp [trackRequest, cleanupExpiredRecords, getRecord, setRecord, hxe, hxx, hk2]
  · simp [trackRequest, cleanupExpiredRecords, getRecord, setRecord, hxe, hxx, hk3]
  · simp [getRemainingRequests, cleanupExpiredRecords, getRecord, deleteRecord, hxe, hxx, hk4]
  · simp [resetThrottling, deleteRecord, hxe, hxx]
  · simp [getRemainingRequests, cleanupExpiredRecords, getRecord, hxe]

/-- Claim C5 witness: the scenario at concrete times. -/
theorem throttler_limit2_scenario_witness :
    trackRequest [] "x" ⟨60, 2⟩ 0 = .ok [("x", ⟨1, 0 + 60000⟩)]
  ∧ trackRequest [("x", ⟨1, 0 + 60000⟩)] "x" ⟨60, 2⟩ 0 = .ok [("x", ⟨2, 0 + 60000⟩)]
  ∧ trackRequest [("x", ⟨2, 0 + 60000⟩)] "x" ⟨60, 2⟩ 0
      = .error (.throttlingExceeded ((0 + 60000 - 0 + 999) / 1000))
  ∧ getRemainingRequests [("x", ⟨2, 0 + 60000⟩)] "x" ⟨60, 2⟩ 0
      = .ok (0, [("x", ⟨2, 0 + 60000⟩)])
  ∧ resetThrottling [("x", ⟨2, 0 + 60000⟩)] "x" = .ok []
  ∧ getRemainingRequests [] "x" ⟨60, 2⟩ 0 = .ok (2, []) :=
  throttler_limit2_scenario 0 0 0 0 0 (Nat.le_refl 0) (Nat.le_refl 0) (Nat.le_refl 0)
    (by omega)

end NestTemplate
